import Mathlib

/-!
Shallow embedding of the Starstream node prototype host
(node_prototype/index.ts): contract code records, the activation state
machine of a UTXO instance, import routing by role, the resume path, the
host `env` imports, handle allocation, and the transaction scheduler
`Universe.runTransaction`. Machine memory is a list of byte values; the
WebAssembly execution of contract code itself is abstracted as function
parameters, while every host-side decision (checks, state transitions,
commit processing) is translated directly from the source.
-/

namespace Starstream

/-- A byte string (wasm blobs, hashes, linear memory contents). -/
abbrev Bytes := List Nat

-- ---------------------------------------------------------------------------
-- ContractCode (index.ts lines 80-111)

/-- A contract code record: the compiled module (represented by the bytes it
was compiled from), its SHA-256 hash, and the original wasm bytes, which are
retained only while the record has not been asyncified (the private `#wasm`
field, `null` after `asyncify()`). -/
structure ContractCode where
  module : Bytes
  hash : Bytes
  wasm : Option Bytes
deriving DecidableEq

/-- `ContractCode.load` (lines 92-98): build a record from raw wasm bytes,
with the digest function passed in (the host uses `crypto.subtle.digest`). -/
def ContractCode.load (sha256 : Bytes → Bytes) (wasm : Bytes) : ContractCode :=
  ⟨wasm, sha256 wasm, some wasm⟩

/-- `ContractCode.asyncify` (lines 100-110): if the original bytes are still
retained, run the binaryen asyncify pass (`transform`) over them and return a
new record with the same hash and no retained bytes; otherwise the record is
already asyncified and is returned as is. -/
def ContractCode.asyncify (transform : Bytes → Bytes) (c : ContractCode) : ContractCode :=
  match c.wasm with
  | some w => ⟨transform w, c.hash, none⟩
  | none => c

-- ---------------------------------------------------------------------------
-- Linear memory primitives

/-- Write `data` into `mem` starting at byte offset `off`, one byte at a time,
modelling `Uint8Array.prototype.set` on a view at that offset. Writes past the
end of `mem` are dropped (`List.set` out of range is the identity); all
theorems that need the write to land state an in-bounds hypothesis. -/
def writeBytes : Bytes → Nat → Bytes → Bytes
  | mem, _, [] => mem
  | mem, off, a :: ds => writeBytes (mem.set off a) (off + 1) ds

/-- Read `len` bytes of `mem` starting at offset `off` (out-of-range reads
give 0), modelling a `Uint8Array` view of that range. -/
def readBytes (mem : Bytes) : Nat → Nat → Bytes
  | _, 0 => []
  | off, len + 1 => mem.getD off 0 :: readBytes mem (off + 1) len

-- ---------------------------------------------------------------------------
-- UtxoInstance activation state machine (index.ts lines 376-516)

/-- The record captured by `starstream_yield` (lines 174-181): three views
into the linear memory of the instance, each a pair of byte offset and byte
length. -/
structure YieldedRecord where
  type_name : Nat × Nat
  data : Nat × Nat
  resume_arg : Nat × Nat
deriving DecidableEq

/-- The private `#state` field of `UtxoInstance` (lines 381-404). -/
inductive ActivationState where
  | not_started
  | yielded (y : YieldedRecord)
  | returned (value : Int)
  | errored
  | effect (name : String)
  | consumed
deriving DecidableEq

/-- `UtxoInstance.isAlive` (lines 491-493): the source compares the state tag
against `"returned"` only. -/
def UtxoInstance.isAlive : ActivationState → Bool
  | ActivationState.returned _ => false
  | _ => true

/-- Outcome of `UtxoInstance.resume`: either a thrown error, with the
activation state and memory as they were when the throw happened, or a normal
return with the post-call state and memory. -/
inductive ResumeOutcome where
  | err (msg : String) (s : ActivationState) (mem : Bytes)
  | ok (s : ActivationState) (mem : Bytes)
deriving DecidableEq

/-- `UtxoInstance.resume` (lines 449-460). The checks and the write into the
`resume_arg` view are translated from the source; the re-invocation of the
wasm entry point inside `#raw_resume` is abstracted as `entry`, which receives
the memory after the resume-argument write and a flag recording that
`asyncify_start_rewind(STACK_START)` was called before the invocation, and
yields the activation state and memory after the call. -/
def UtxoInstance.resume (entry : Bytes → Bool → ActivationState × Bytes)
    (s : ActivationState) (mem : Bytes) (resume_data : Option Bytes) : ResumeOutcome :=
  match s with
  | ActivationState.yielded y =>
      if y.resume_arg.2 ≠ (match resume_data with | some d => d.length | none => 0) then
        ResumeOutcome.err "resume_arg size mismatch" (ActivationState.yielded y) mem
      else
        let mem1 := match resume_data with
          | some d => writeBytes mem y.resume_arg.1 d
          | none => mem
        let out := entry mem1 true
        ResumeOutcome.ok out.1 out.2
  | s => ResumeOutcome.err "Cannot resume() in this state" s mem

-- ---------------------------------------------------------------------------
-- Utxo (index.ts lines 520-552)

/-- The durable `Utxo` record. The `id` field stands for the object identity
used by the `Set` and `Map` containers of the host; `loaded` is the private
`#loaded` field, carrying the activation state of the loaded `UtxoInstance`
when present. The attached token set is kept as a list of token identities. -/
structure Utxo where
  id : Nat
  codeId : String
  entryPoint : String
  loaded : Option ActivationState
  tokens : List Nat
deriving DecidableEq

/-- `Utxo.unload` (line 535): the body is empty, so unloading changes
nothing and in particular never clears the loaded instance. -/
def Utxo.unload (u : Utxo) : Utxo := u

/-- `Utxo.isAlive` (lines 541-544): delegate to the loaded instance when one
exists, otherwise report not alive. -/
def Utxo.isAlive (u : Utxo) : Bool :=
  match u.loaded with
  | some inst => UtxoInstance.isAlive inst
  | none => false

-- ---------------------------------------------------------------------------
-- Import routing by role (index.ts lines 53-61 and 311-345)

/-- The role of a contract instance, decided in the `ContractInstance`
constructor by `instanceof` checks: `CoordinationScriptInstance`,
`UtxoInstance`, or `TokenInstance`. -/
inductive Role where
  | coordination
  | utxo
  | tokenMint
deriving DecidableEq

/-- The module-name patterns the constructor dispatches on (lines 317-339):
the literal names `env` and `starstream_utxo_env`, the two prefixed families
with their captured code id, and anything else. -/
inductive ModuleName where
  | env
  | utxoEnv
  | utxo (id : String)
  | token (id : String)
  | other (name : String)
deriving DecidableEq

/-- What the constructor installs for one import module. -/
inductive ImportBinding where
  | envBinding
  | utxoEnvBinding
  | utxoBinding (id : String)
  | tokenBinding (id : String)
  | fake (message : String)
  | absent
deriving DecidableEq

/-- The import-routing decision of the `ContractInstance` constructor
(lines 316-340): each module name is bound to its real fulfiller when the
role of the instance permits it, to a `fakeModule` trap stub otherwise, and
modules of unknown shape are left absent. -/
def routeImport (role : Role) : ModuleName → ImportBinding
  | ModuleName.env => ImportBinding.envBinding
  | ModuleName.utxoEnv =>
      if role = Role.utxo then ImportBinding.utxoEnvBinding
      else ImportBinding.fake "available in UTXO context only"
  | ModuleName.utxo id =>
      if role = Role.coordination then ImportBinding.utxoBinding id
      else ImportBinding.fake "available in Coordination context only"
  | ModuleName.token id =>
      if role = Role.utxo then ImportBinding.tokenBinding id
      else ImportBinding.fake "available in UTXO context only"
  | ModuleName.other _ => ImportBinding.absent

/-- Invocation of an installed import against host state `S`. `fakeModule`
stubs (lines 53-61) throw their message unconditionally and touch nothing;
every real binding runs the host semantics `sem`. The result is the raised
error, if any, together with the host state after the call. -/
def invokeImport {S : Type} (sem : ImportBinding → S → Option String × S) :
    ImportBinding → S → Option String × S
  | ImportBinding.fake msg, s => (some msg, s)
  | b, s => sem b s

/-- The role table of the spec (section 4.2): `env` is allowed in all roles,
`starstream_utxo_env` in the utxo role only, `starstream_utxo:{id}` in the
coordination role only, `starstream_token:{id}` in the utxo role only. A
module is forbidden when it belongs to one of the three restricted families
and the role is not the permitted one. Stated from the spec in order to be
compared with `routeImport`, which is translated from the source. -/
def spec_forbiddenModule (role : Role) : ModuleName → Bool
  | ModuleName.utxoEnv => !(role = Role.utxo : Bool)
  | ModuleName.utxo _ => !(role = Role.coordination : Bool)
  | ModuleName.token _ => !(role = Role.utxo : Bool)
  | _ => false

-- ---------------------------------------------------------------------------
-- Handle allocation (index.ts lines 71-74, 605-609, 271-278)

/-- `randomU32` (lines 71-74): `Math.ceil((1 - Math.random()) * (1 << 30))`,
with the draw of `Math.random()` passed in as a rational in `[0, 1)`. -/
def randomU32 (random : ℚ) : ℤ := ⌈(1 - random) * 1073741824⌉

/-- `CoordinationScriptInstance.setUtxo` (lines 605-609): draw a fresh random
handle, install the UTXO under it in the handle table, return the handle. -/
def CoordinationScriptInstance.setUtxo (random : ℚ) (utxos : List (ℤ × Utxo))
    (u : Utxo) : ℤ × List (ℤ × Utxo) :=
  let handle := randomU32 random
  (handle, (handle, u) :: utxos)

/-- The `starstream_mint_*` adapter of `TokenImport` (lines 271-278): draw a
fresh random handle, record the freshly minted token (whose creation by the
token contract is abstracted as the value `newToken`) in the private token
table under that handle, add it to the token set of the enclosing UTXO, and
return the handle. -/
def TokenImport.starstream_mint (random : ℚ) (tokens : List (ℤ × Nat))
    (newToken : Nat) (utxoTokens : List Nat) : ℤ × List (ℤ × Nat) × List Nat :=
  let handle := randomU32 random
  (handle, (handle, newToken) :: tokens, utxoTokens ++ [newToken])

-- ---------------------------------------------------------------------------
-- The env import starstream_coordination_code (index.ts lines 142-149)

/-- `StarstreamEnv.starstream_coordination_code` (lines 142-149): with no
active coordination context the call throws `bad context`; otherwise the
source writes the 32-byte hash of the code of the invoking instance
(`this.me.code.hash`) at `return_addr`. The line writing the hash of the
coordination context is present in the source only as a comment. -/
def StarstreamEnv.starstream_coordination_code (ctx : Option Bytes)
    (meHash : Bytes) (mem : Bytes) (return_addr : Nat) : Except String Bytes :=
  match ctx with
  | none => Except.error "bad context"
  | some _ => Except.ok (writeBytes mem return_addr meHash)

-- ---------------------------------------------------------------------------
-- Transaction scheduler (index.ts lines 119-121, 622-694)

/-- `Set.prototype.add` on the universe UTXO set: append when absent. -/
def insertId (x : Nat) (s : List Nat) : List Nat :=
  if x ∈ s then s else s ++ [x]

/-- `Set.prototype.delete` on the universe UTXO set. -/
def eraseId (x : Nat) (s : List Nat) : List Nat :=
  s.filter (fun y => y ≠ x)

/-- The commit loop of `Universe.runTransaction` (lines 675-682): for every
UTXO in the handle table of the coordination instance, add it to the universe
UTXO set when `utxo.isAlive()` and delete it otherwise. -/
def commitUtxoSet (table : List Utxo) (s : List Nat) : List Nat :=
  table.foldl (fun acc u => if u.isAlive then insertId u.id acc else eraseId u.id acc) s

/-- The host state threaded through a transaction: the process-scoped
`coordinationContext` slot (lines 119-120, held as the hash of the active
coordination code), the universe UTXO set (line 624, as the identities of its
members), and a ghost count of burn intermediates currently held by the
coordination script. The prototype keeps no such counter anywhere (the
`intermediates_pending` counter described by the spec is absent from the
source); the field only records what the abstracted contract execution did
with intermediates, and no definition translated from the source reads it. -/
structure TxWorld where
  coordinationContext : Option Bytes
  universeUtxos : List Nat
  pendingIntermediates : Nat
deriving DecidableEq

/-- The abstracted execution of the coordination entry point together with
every host call it makes (lines 655-669): given the world as the call begins,
it either throws, yielding the error message and the world at the throw
point, or returns cleanly with the wasm result, the final handle table of the
coordination instance, and the world at the return point. -/
abbrev EntryFn := TxWorld → Except (String × TxWorld) (Int × List Utxo × TxWorld)

/-- `Universe.runTransaction` (lines 649-689), with the instantiation and
execution of the coordination script abstracted as `entry`. The source sets
the process-scoped `coordinationContext`, invokes the entry point, and only
on a clean return clears the context and runs the commit loop; there is no
try/finally, so a thrown error propagates with the context still set and the
commit loop skipped. The substitution of a returned handle by its `Utxo`
(lines 684-688) is omitted; the raw result is returned. -/
def Universe.runTransaction (entry : EntryFn) (w : TxWorld) (coordHash : Bytes) :
    Except String Int × TxWorld :=
  let w1 : TxWorld := ⟨some coordHash, w.universeUtxos, w.pendingIntermediates⟩
  match entry w1 with
  | Except.error (e, we) => (Except.error e, we)
  | Except.ok (result, table, w2) =>
      (Except.ok result, ⟨none, commitUtxoSet table w2.universeUtxos, w2.pendingIntermediates⟩)

/-- Modelled from the spec: the scheduler is said to track an
`intermediates_pending` counter per transaction and to fail the transaction
with `UnresolvedIntermediate` when the counter is non-zero at the return
point. No such counter or check exists in the prototype source; this
definition follows the words of the spec so it can be compared with
`Universe.runTransaction`. -/
def spec_intermediatesReturnCheck (w : TxWorld) : Except String Unit :=
  if w.pendingIntermediates ≠ 0 then Except.error "UnresolvedIntermediate"
  else Except.ok ()

-- ---------------------------------------------------------------------------
-- Concrete inputs used by the counterexamples and witnesses

/-- A concrete UTXO with no loaded instance. -/
def u0 : Utxo := ⟨1, "example_contract", "starstream_new_main", none, []⟩

/-- A concrete UTXO whose loaded instance is in the consumed state. -/
def c2_consumedUtxo : Utxo := ⟨7, "example_contract", "starstream_new_main",
  some ActivationState.consumed, []⟩

/-- A concrete entry-point behaviour that throws immediately. -/
def c1_entry : EntryFn := fun w => Except.error ("trap", w)

/-- A concrete entry-point behaviour that returns cleanly with one consumed
UTXO in the handle table. -/
def c2_entry : EntryFn := fun w => Except.ok (0, [c2_consumedUtxo], w)

/-- A concrete entry-point behaviour in which a burn intermediate flowed back
into the coordination and was never re-minted: the run returns cleanly with
one intermediate still pending. -/
def c7_entry : EntryFn := fun w =>
  Except.ok (0, [], ⟨w.coordinationContext, w.universeUtxos, 1⟩)

/-- A concrete hash of the invoking contract. -/
def c6_me_hash : Bytes := List.replicate 32 1

/-- A concrete hash of the active coordination code, distinct from
`c6_me_hash`. -/
def c6_coord_hash : Bytes := List.replicate 32 2

/-- A concrete 64-byte linear memory. -/
def c6_mem : Bytes := List.replicate 64 0

/-- A concrete abstracted entry point for the resume witness: it ends the
activation in the consumed state and leaves memory as given. -/
def c5_entry : Bytes → Bool → ActivationState × Bytes := fun m _ =>
  (ActivationState.consumed, m)

/-- A concrete yielded record whose resume-argument view is 3 bytes at
offset 2. -/
def c5_y : YieldedRecord := ⟨(0, 0), (0, 0), (2, 3)⟩

/-- A concrete 6-byte linear memory. -/
def c5_mem : Bytes := [9, 9, 9, 9, 9, 9]

/-- A concrete host semantics for real import bindings that never raises and
never changes state. -/
def c4_sem : ImportBinding → Nat → Option String × Nat := fun _ s => (none, s)

-- ---------------------------------------------------------------------------
-- Memory lemmas

theorem getD_set_lt (l : Bytes) (i j a : Nat) (h : j < i) :
    (l.set i a).getD j 0 = l.getD j 0 := by
  induction l generalizing i j with
  | nil => rfl
  | cons b bs ih =>
    cases i with
    | zero => omega
    | succ i =>
      cases j with
      | zero => rfl
      | succ j =>
        simp only [List.set, List.getD_cons_succ]
        exact ih i j (by omega)

theorem getD_set_self (l : Bytes) (i a : Nat) (h : i < l.length) :
    (l.set i a).getD i 0 = a := by
  induction l generalizing i with
  | nil => simp at h
  | cons b bs ih =>
    cases i with
    | zero => rfl
    | succ i =>
      simp only [List.set, List.getD_cons_succ]
      exact ih i (by simp at h; omega)

theorem writeBytes_getD_lt (d : Bytes) : ∀ (mem : Bytes) (off i : Nat), i < off →
    (writeBytes mem off d).getD i 0 = mem.getD i 0 := by
  induction d with
  | nil => intro mem off i _; rfl
  | cons a ds ih =>
    intro mem off i h
    simp only [writeBytes]
    rw [ih (mem.set off a) (off + 1) i (by omega)]
    exact getD_set_lt mem off i a h

theorem readBytes_writeBytes (d : Bytes) : ∀ (mem : Bytes) (off : Nat),
    off + d.length ≤ mem.length →
    readBytes (writeBytes mem off d) off d.length = d := by
  induction d with
  | nil => intro mem off _; rfl
  | cons a ds ih =>
    intro mem off h
    simp only [writeBytes, List.length_cons, readBytes]
    have hlen : off < mem.length := by simp only [List.length_cons] at h; omega
    rw [writeBytes_getD_lt ds (mem.set off a) (off + 1) off (by omega)]
    rw [getD_set_self mem off a hlen]
    rw [ih (mem.set off a) (off + 1) (by rw [List.length_set]; simp only [List.length_cons] at h; omega)]

-- ---------------------------------------------------------------------------
-- Claim theorems

/-- C1: the claim states that a failed transaction leaves the universe
unchanged and the coordination context cleared to null. Evaluated at a
transaction whose entry point throws: the error propagates and the universe
UTXO set is indeed unchanged, but the context slot still holds the failed
coordination, because the source has no try/finally and the line clearing the
slot is only reached on a clean return. -/
theorem c1_failed_transaction_keeps_context :
    (Universe.runTransaction c1_entry ⟨none, [5], 0⟩ [9]).1 = Except.error "trap"
    ∧ (Universe.runTransaction c1_entry ⟨none, [5], 0⟩ [9]).2.coordinationContext = some [9]
    ∧ (Universe.runTransaction c1_entry ⟨none, [5], 0⟩ [9]).2.universeUtxos = [5] :=
  ⟨rfl, rfl, rfl⟩

/-- C2: the claim states that after a clean transaction every consumed UTXO
of the handle table is absent from the universe UTXO set. Evaluated at a
transaction whose handle table holds one UTXO in the consumed state: the
commit loop keeps it, because `Utxo.isAlive` only checks for the returned
state, so the consumed UTXO is added to the universe instead of removed. -/
theorem c2_consumed_utxo_kept_in_universe :
    (Universe.runTransaction c2_entry ⟨none, [], 0⟩ [9]).1 = Except.ok 0
    ∧ (Universe.runTransaction c2_entry ⟨none, [], 0⟩ [9]).2.universeUtxos = [7] := by
  constructor
  · rfl
  · decide

/-- C3: the claim states that `isAlive()` is true exactly when the state is
neither returned nor consumed. The source compares only against the returned
tag, so in the consumed state it answers true where the claim demands false;
in the returned state it answers false as the claim says. -/
theorem c3_isAlive_true_on_consumed :
    UtxoInstance.isAlive ActivationState.consumed = true
    ∧ UtxoInstance.isAlive (ActivationState.returned 0) = false :=
  ⟨rfl, rfl⟩

/-- C4: for every instance role and every import module name forbidden for
that role by the role table, the constructor installs a trap stub for the
module, and invoking it raises the stub message and returns the host state
unchanged, whatever the semantics of the real bindings are. -/
theorem c4_forbidden_import_traps {S : Type} (sem : ImportBinding → S → Option String × S)
    (role : Role) (m : ModuleName) (s : S) (h : spec_forbiddenModule role m = true) :
    ∃ msg, routeImport role m = ImportBinding.fake msg ∧
      invokeImport sem (routeImport role m) s = (some msg, s) := by
  cases m with
  | env => simp [spec_forbiddenModule] at h
  | utxoEnv =>
    cases role with
    | utxo => simp [spec_forbiddenModule] at h
    | coordination => exact ⟨"available in UTXO context only", rfl, rfl⟩
    | tokenMint => exact ⟨"available in UTXO context only", rfl, rfl⟩
  | utxo id =>
    cases role with
    | coordination => simp [spec_forbiddenModule] at h
    | utxo => exact ⟨"available in Coordination context only", rfl, rfl⟩
    | tokenMint => exact ⟨"available in Coordination context only", rfl, rfl⟩
  | token id =>
    cases role with
    | utxo => simp [spec_forbiddenModule] at h
    | coordination => exact ⟨"available in UTXO context only", rfl, rfl⟩
    | tokenMint => exact ⟨"available in UTXO context only", rfl, rfl⟩
  | other name => simp [spec_forbiddenModule] at h

/-- C4 witness: the utxo-only module `starstream_utxo_env` on a coordination
instance is installed as a trap stub and invoking it raises the stub message
leaving the state unchanged. -/
theorem c4_forbidden_import_traps_witness :
    spec_forbiddenModule Role.coordination ModuleName.utxoEnv = true
    ∧ ∃ msg, routeImport Role.coordination ModuleName.utxoEnv = ImportBinding.fake msg ∧
        invokeImport c4_sem (routeImport Role.coordination ModuleName.utxoEnv) 0 = (some msg, 0) :=
  ⟨rfl, c4_forbidden_import_traps c4_sem Role.coordination ModuleName.utxoEnv 0 rfl⟩

/-- C5: resuming a yielded activation with a payload whose length differs
from the resume-argument view fails with the size-mismatch error, leaving the
activation state and the memory exactly as they were; with a payload of
matching length the payload bytes are written into the view and the entry
point is re-invoked after the rewind is started. -/
theorem c5_resume_size_and_write (entry : Bytes → Bool → ActivationState × Bytes)
    (y : YieldedRecord) (mem : Bytes) (d : Bytes) :
    (d.length ≠ y.resume_arg.2 →
      UtxoInstance.resume entry (ActivationState.yielded y) mem (some d) =
        ResumeOutcome.err "resume_arg size mismatch" (ActivationState.yielded y) mem)
    ∧ (d.length = y.resume_arg.2 → y.resume_arg.1 + d.length ≤ mem.length →
      UtxoInstance.resume entry (ActivationState.yielded y) mem (some d) =
        ResumeOutcome.ok (entry (writeBytes mem y.resume_arg.1 d) true).1
          (entry (writeBytes mem y.resume_arg.1 d) true).2
      ∧ readBytes (writeBytes mem y.resume_arg.1 d) y.resume_arg.1 d.length = d) := by
  constructor
  · intro h
    simp only [UtxoInstance.resume]
    rw [if_pos (fun e => h e.symm)]
  · intro h hb
    constructor
    · simp only [UtxoInstance.resume]
      rw [if_neg (not_not_intro h.symm)]
    · exact readBytes_writeBytes d mem y.resume_arg.1 hb

/-- C5 witness: with a 3-byte view at offset 2 in a 6-byte memory, a 1-byte
payload fails with the size-mismatch error and changes nothing, and a 3-byte
payload is written into the view and the entry point runs. -/
theorem c5_resume_size_and_write_witness :
    UtxoInstance.resume c5_entry (ActivationState.yielded c5_y) c5_mem (some [1]) =
      ResumeOutcome.err "resume_arg size mismatch" (ActivationState.yielded c5_y) c5_mem
    ∧ (UtxoInstance.resume c5_entry (ActivationState.yielded c5_y) c5_mem (some [1, 2, 3]) =
        ResumeOutcome.ok ActivationState.consumed [9, 9, 1, 2, 3, 9]
      ∧ readBytes (writeBytes c5_mem 2 [1, 2, 3]) 2 3 = [1, 2, 3]) := by
  refine ⟨(c5_resume_size_and_write c5_entry c5_y c5_mem [1]).1 (by decide), ?_, ?_⟩
  · exact ((c5_resume_size_and_write c5_entry c5_y c5_mem [1, 2, 3]).2 (by decide) (by decide)).1.trans (by decide)
  · exact ((c5_resume_size_and_write c5_entry c5_y c5_mem [1, 2, 3]).2 (by decide) (by decide)).2

/-- C6: the claim states that the import writes the 32-byte program id of the
active coordination. Evaluated at an invoking instance whose own hash differs
from the hash of the active coordination: the source writes the hash of the
invoking instance, so the 32 bytes at the return address are not the
coordination program id. -/
theorem c6_writes_own_code_hash :
    StarstreamEnv.starstream_coordination_code (some c6_coord_hash) c6_me_hash c6_mem 0 =
      Except.ok (writeBytes c6_mem 0 c6_me_hash)
    ∧ readBytes (writeBytes c6_mem 0 c6_me_hash) 0 32 = c6_me_hash
    ∧ readBytes (writeBytes c6_mem 0 c6_me_hash) 0 32 ≠ c6_coord_hash := by
  refine ⟨rfl, by decide, by decide⟩

/-- C7 counterexample: a transaction in which a burn intermediate flowed back
into the coordination and is still pending at the return point nevertheless
returns cleanly and commits, while the return-point check described by the
spec would have failed it with the unresolved-intermediate error. -/
theorem c7_unresolved_intermediate_still_commits :
    (Universe.runTransaction c7_entry ⟨none, [], 0⟩ [9]).1 = Except.ok 0
    ∧ (Universe.runTransaction c7_entry ⟨none, [], 0⟩ [9]).2.pendingIntermediates = 1
    ∧ spec_intermediatesReturnCheck (Universe.runTransaction c7_entry ⟨none, [], 0⟩ [9]).2 =
        Except.error "UnresolvedIntermediate" :=
  ⟨rfl, rfl, rfl⟩

/-- C7 amended: the prototype scheduler performs no intermediate tracking at
the return point; whenever the coordination entry point returns cleanly the
transaction commits and returns its result, whatever number of burn
intermediates is still pending. -/
theorem c7_commit_ignores_intermediates (entry : EntryFn) (w : TxWorld)
    (coordHash : Bytes) (result : Int) (table : List Utxo) (w2 : TxWorld)
    (hentry : entry ⟨some coordHash, w.universeUtxos, w.pendingIntermediates⟩ =
      Except.ok (result, table, w2)) :
    (Universe.runTransaction entry w coordHash).1 = Except.ok result
    ∧ (Universe.runTransaction entry w coordHash).2.pendingIntermediates =
        w2.pendingIntermediates := by
  simp only [Universe.runTransaction, hentry]
  exact ⟨trivial, trivial⟩

/-- C7 witness: the amended claim evaluated at the concrete run in which one
intermediate is pending at the return point. -/
theorem c7_commit_ignores_intermediates_witness :
    (Universe.runTransaction c7_entry ⟨none, [], 0⟩ [9]).1 = Except.ok 0
    ∧ (Universe.runTransaction c7_entry ⟨none, [], 0⟩ [9]).2.pendingIntermediates =
        (⟨some [9], [], 1⟩ : TxWorld).pendingIntermediates :=
  c7_commit_ignores_intermediates c7_entry ⟨none, [], 0⟩ [9] 0 [] ⟨some [9], [], 1⟩ rfl

/-- C8: asyncification is idempotent on loaded code records: asyncifying an
already-asyncified record returns the very same record, and the original
bytes are not retained. -/
theorem c8_asyncify_idempotent (transform sha256 : Bytes → Bytes) (wasmBytes : Bytes) :
    ((ContractCode.load sha256 wasmBytes).asyncify transform).asyncify transform =
      (ContractCode.load sha256 wasmBytes).asyncify transform
    ∧ ((ContractCode.load sha256 wasmBytes).asyncify transform).wasm = none :=
  ⟨rfl, rfl⟩

/-- C9: for every draw of the random source in the interval from 0 inclusive
to 1 exclusive, the UTXO handle allocated by `setUtxo` and the token handle
allocated by the mint import both lie in the closed range from 1 to 2 to the
power 30. -/
theorem c9_handles_in_range (random : ℚ) (table : List (ℤ × Utxo)) (u : Utxo)
    (tokens : List (ℤ × Nat)) (newToken : Nat) (utxoTokens : List Nat)
    (h0 : 0 ≤ random) (h1 : random < 1) :
    (1 ≤ (CoordinationScriptInstance.setUtxo random table u).1
      ∧ (CoordinationScriptInstance.setUtxo random table u).1 ≤ 2 ^ 30)
    ∧ (1 ≤ (TokenImport.starstream_mint random tokens newToken utxoTokens).1
      ∧ (TokenImport.starstream_mint random tokens newToken utxoTokens).1 ≤ 2 ^ 30) := by
  have hmul : (0 : ℚ) ≤ random * 1073741824 := by positivity
  have key1 : 1 ≤ randomU32 random := by
    have hpos : (0 : ℚ) < (1 - random) * 1073741824 := by nlinarith
    have := Int.ceil_pos.mpr hpos
    unfold randomU32
    omega
  have key2 : randomU32 random ≤ 2 ^ 30 := by
    unfold randomU32
    rw [Int.ceil_le]
    push_cast
    nlinarith
  exact ⟨⟨key1, key2⟩, key1, key2⟩

/-- C9 witness: at the draw 0 the handles equal 2 to the power 30, the top of
the range. -/
theorem c9_handles_in_range_witness :
    (1 ≤ (CoordinationScriptInstance.setUtxo 0 [] u0).1
      ∧ (CoordinationScriptInstance.setUtxo 0 [] u0).1 ≤ 2 ^ 30)
    ∧ (1 ≤ (TokenImport.starstream_mint 0 [] 0 []).1
      ∧ (TokenImport.starstream_mint 0 [] 0 []).1 ≤ 2 ^ 30) :=
  c9_handles_in_range 0 [] u0 [] 0 [] (by norm_num) (by norm_num)

/-- C10: a UTXO with no loaded instance reports not alive, even when it is a
member of the universe UTXO set, and unloading is the identity, so it never
produces an archived record that would count as alive. -/
theorem c10_unloaded_utxo_not_alive (u : Utxo) (uni : List Nat)
    (hl : u.loaded = none) (_hm : u.id ∈ uni) :
    u.isAlive = false ∧ Utxo.unload u = u := by
  constructor
  · simp [Utxo.isAlive, hl]
  · rfl

/-- C10 witness: the unloaded concrete UTXO inside a one-element universe set
is not alive and unloading leaves it unchanged. -/
theorem c10_unloaded_utxo_not_alive_witness :
    Utxo.isAlive u0 = false ∧ Utxo.unload u0 = u0 :=
  c10_unloaded_utxo_not_alive u0 [1] rfl (by decide)

end Starstream
